import Mathlib

/-!
Shallow embedding of the DeFi chat front-end (ChatInterface, StrategyVisualizer,
StrategyExecutor, and the second ChatInterface variant) together with proofs about
its risk-scoring, transaction-signing, file-validation, and submission logic.

JavaScript conventions used throughout the model:
* a JS `undefined`/`null`-able value is an `Option`;
* `String.prototype.includes` is substring containment (`jsIncludes`);
* falsiness of a string is emptiness; JSON numbers are modelled as integers
  (the payloads consumed here — gas, nonce, chainId, risk scores — are integral).
-/

/-- Containment of `pat` as a contiguous run of characters of `s`. -/
def listHasInfix (pat : List Char) : List Char → Bool
  | [] => pat.isEmpty
  | c :: rest => pat.isPrefixOf (c :: rest) || listHasInfix pat rest

/-- Substring containment, modelling JavaScript `String.prototype.includes`. -/
def jsIncludes (s pat : String) : Bool :=
  listHasInfix pat.toList s.toList

/-- JavaScript `String.prototype.trim`: strip leading and trailing whitespace. -/
def jsTrim (s : String) : String :=
  String.mk (((s.toList.dropWhile Char.isWhitespace).reverse.dropWhile Char.isWhitespace).reverse)

/-- JavaScript `String.prototype.toUpperCase` (the ASCII fragment the CONFIRM
check relies on). -/
def jsToUpper (s : String) : String :=
  String.mk (s.toList.map Char.toUpper)

/-- JavaScript `String.prototype.startsWith`. -/
def jsStartsWith (s pat : String) : Bool :=
  pat.toList.isPrefixOf s.toList

/-- The quiz answer record keyed by the three question ids of `RISK_QUESTIONS`
(`experience`, `timeline`, `risk_tolerance`); `none` models an absent key. -/
structure QuizAnswers where
  experience : Option String
  timeline : Option String
  risk_tolerance : Option String

/-- Experience contribution of `generateRiskProfileFromQuiz`
(ChatInterface.tsx lines 320-322): the `answers.experience?.includes(...)`
else-if chain. An absent answer short-circuits every branch and contributes 0. -/
def scoreExperience (a : Option String) : Nat :=
  match a with
  | none => 0
  | some s =>
    if jsIncludes s "Beginner" then 1
    else if jsIncludes s "Intermediate" then 2
    else if jsIncludes s "Advanced" then 3
    else 0

/-- Timeline contribution (lines 325-327). -/
def scoreTimeline (a : Option String) : Nat :=
  match a with
  | none => 0
  | some s =>
    if jsIncludes s "Short-term" then 1
    else if jsIncludes s "Medium-term" then 2
    else if jsIncludes s "Long-term" then 3
    else 0

/-- Risk-tolerance contribution (lines 330-332). -/
def scoreRiskTolerance (a : Option String) : Nat :=
  match a with
  | none => 0
  | some s =>
    if jsIncludes s "Sell immediately" then 1
    else if jsIncludes s "Hold" then 2
    else if jsIncludes s "Buy more" then 3
    else 0

/-- The accumulated `riskScore` of `generateRiskProfileFromQuiz` (lines 317-332):
three sequential `riskScore +=` updates, i.e. the sum of the contributions. -/
def quizRiskScore (answers : QuizAnswers) : Nat :=
  scoreExperience answers.experience + scoreTimeline answers.timeline
    + scoreRiskTolerance answers.risk_tolerance

/-- The three strategy profiles selectable by the risk assessment. -/
inductive Tier where
  | conservative
  | moderate
  | aggressive
deriving DecidableEq

/-- One entry of `STRATEGY_TEMPLATES` (ChatInterface.tsx lines 126-175). -/
structure StrategyTemplate where
  title : String
  allocation : List String
  transition : List String

/-- The `STRATEGY_TEMPLATES` constant (lines 126-175), keyed by tier. -/
def STRATEGY_TEMPLATES (t : Tier) : StrategyTemplate :=
  match t with
  | .conservative =>
    { title := "🔵 Conservative Flare DeFi Strategy"
      allocation :=
        [ "- Focus on FLR delegation to FTSO providers (5-8% APY)"
        , "- Participate in SparkDEX liquidity pools with stablecoin pairs"
        , "- Recommended allocation:"
        , "  • 60% FLR delegation"
        , "  • 30% stablecoin LP on SparkDEX"
        , "  • 10% held in native FLR" ]
      transition :=
        [ "- Start with small positions in stablecoin pools"
        , "- Focus on FTSO delegation for steady returns"
        , "- Gradually explore SparkDEX's low-risk pairs" ] }
  | .moderate =>
    { title := "🟡 Moderate Flare DeFi Strategy"
      allocation :=
        [ "- Mix of FTSO delegation and liquidity provision"
        , "- Active participation in SparkDEX and Flare Finance"
        , "- Recommended allocation:"
        , "  • 40% FLR delegation"
        , "  • 40% liquidity provision (mixed pairs)"
        , "  • 20% yield farming on Flare Finance" ]
      transition :=
        [ "- Convert some stock positions to FLR"
        , "- Explore yield farming with established protocols"
        , "- Balance between delegation and LP rewards" ] }
  | .aggressive =>
    { title := "🔴 Aggressive Flare DeFi Strategy"
      allocation :=
        [ "- Focus on high-yield opportunities in the Flare ecosystem"
        , "- Active trading and yield farming"
        , "- Recommended allocation:"
        , "  • 30% FLR delegation"
        , "- 40% yield farming on new protocols"
        , "  • 30% active LP position management" ]
      transition :=
        [ "- Actively participate in new Flare protocols"
        , "- Leverage your trading experience in DeFi"
        , "- Explore advanced strategies across the ecosystem" ] }

/-- `formatRiskProfile` (ChatInterface.tsx lines 178-194). -/
def formatRiskProfile (strategyType : Tier) : String :=
  let strategy := STRATEGY_TEMPLATES strategyType
  "Based on your assessment, here's your Flare DeFi investment profile:\n\n"
    ++ strategy.title ++ "\n\n"
    ++ "Mix of FTSO delegation and liquidity provision\n\n"
    ++ "Active participation in SparkDEX and Flare Finance\n\n"
    ++ "Recommended allocation:\n"
    ++ String.intercalate "\n" strategy.allocation ++ "\n\n"
    ++ "💡 Transition Strategy from TradFi:\n"
    ++ String.intercalate "\n" strategy.transition ++ "\n\n"
    ++ "I've prepared a visual breakdown of this strategy below. You can click 'Execute Strategy' when you're ready to implement it step by step.\n\n"
    ++ "You can also continue chatting with me for specific recommendations about Flare protocols and how to implement this strategy!"

/-- `generateRiskProfileFromQuiz` (ChatInterface.tsx lines 315-342): score the
answers, then pick the template by the two thresholds. (The `setShowStrategy`
side effect is UI state, not part of the returned profile.) -/
def generateRiskProfileFromQuiz (answers : QuizAnswers) : String :=
  let riskScore := quizRiskScore answers
  if riskScore ≤ 4 then formatRiskProfile .conservative
  else if riskScore ≤ 7 then formatRiskProfile .moderate
  else formatRiskProfile .aggressive

/-- `generateRiskProfileFromScore` (ChatInterface.tsx lines 303-312), applied to
the backend's `risk_score`. -/
def generateRiskProfileFromScore (risk_score : Int) : String :=
  if risk_score ≤ 4 then formatRiskProfile .conservative
  else if risk_score ≤ 7 then formatRiskProfile .moderate
  else formatRiskProfile .aggressive

/-- The tier selected by the quiz branch of `generateRiskProfileFromQuiz`. -/
def quizTier (answers : QuizAnswers) : Tier :=
  let riskScore := quizRiskScore answers
  if riskScore ≤ 4 then .conservative
  else if riskScore ≤ 7 then .moderate
  else .aggressive

/-- The tier selected by `generateRiskProfileFromScore`. -/
def scoreTier (risk_score : Int) : Tier :=
  if risk_score ≤ 4 then .conservative
  else if risk_score ≤ 7 then .moderate
  else .aggressive

/-- Chat message sender kind. -/
inductive MsgType where
  | user
  | bot
deriving DecidableEq

/-- The `Message` view-model of the first ChatInterface variant (lines 20-25). -/
structure Message where
  text : String
  type : MsgType
  imageData : Option String
  isTyping : Bool
deriving DecidableEq

/-- A user message as appended by `addMessage` (lines 282-300): no typing effect. -/
def mkUserMessage (text : String) (imageData : Option String) : Message :=
  { text := text, type := .user, imageData := imageData, isTyping := false }

/-- A bot message as appended by `addMessage` (lines 282-300): placed with a
typing placeholder first (`isTyping := true`); a later timer clears the flag. -/
def mkBotMessage (text : String) : Message :=
  { text := text, type := .bot, imageData := none, isTyping := true }

/-- Experience contribution of the second variant's `generateRiskProfile`
(ChatInterface.tsx lines 1209-1211). -/
def scoreExperienceV2 (a : Option String) : Nat :=
  match a with
  | none => 0
  | some s =>
    if jsIncludes s "Beginner" then 1
    else if jsIncludes s "Intermediate" then 2
    else if jsIncludes s "Advanced" then 3
    else 0

/-- Timeline contribution of the second variant (lines 1214-1216). -/
def scoreTimelineV2 (a : Option String) : Nat :=
  match a with
  | none => 0
  | some s =>
    if jsIncludes s "Short-term" then 1
    else if jsIncludes s "Medium-term" then 2
    else if jsIncludes s "Long-term" then 3
    else 0

/-- Risk-tolerance contribution of the second variant (lines 1219-1221). -/
def scoreRiskToleranceV2 (a : Option String) : Nat :=
  match a with
  | none => 0
  | some s =>
    if jsIncludes s "Sell immediately" then 1
    else if jsIncludes s "Hold" then 2
    else if jsIncludes s "Buy more" then 3
    else 0

/-- The accumulated `riskScore` of the second variant's `generateRiskProfile`
(lines 1206-1221). -/
def riskScoreV2 (answers : QuizAnswers) : Nat :=
  scoreExperienceV2 answers.experience + scoreTimelineV2 answers.timeline
    + scoreRiskToleranceV2 answers.risk_tolerance

/-- The strategy block chosen by the second variant's threshold chain
(lines 1235-1271). -/
def strategyBlockV2 (t : Tier) : String :=
  match t with
  | .conservative =>
    "🔵 Conservative Flare DeFi Strategy\n"
      ++ "- Focus on FLR delegation to FTSO providers (5-8% APY)\n"
      ++ "- Participate in SparkDEX liquidity pools with stablecoin pairs\n"
      ++ "- Recommended allocation:\n"
      ++ "  • 60% FLR delegation\n"
      ++ "  • 30% stablecoin LP on SparkDEX\n"
      ++ "  • 10% held in native FLR\n\n"
      ++ "💡 Transition Strategy from TradFi:\n"
      ++ "- Start with small positions in stablecoin pools\n"
      ++ "- Focus on FTSO delegation for steady returns\n"
      ++ "- Gradually explore SparkDEX's low-risk pairs\n\n"
  | .moderate =>
    "🟡 Moderate Flare DeFi Strategy\n"
      ++ "- Mix of FTSO delegation and liquidity provision\n"
      ++ "- Active participation in SparkDEX and Flare Finance\n"
      ++ "- Recommended allocation:\n"
      ++ "  • 40% FLR delegation\n"
      ++ "  • 40% liquidity provision (mixed pairs)\n"
      ++ "  • 20% yield farming on Flare Finance\n\n"
      ++ "💡 Transition Strategy from TradFi:\n"
      ++ "- Convert some stock positions to FLR\n"
      ++ "- Explore yield farming with established protocols\n"
      ++ "- Balance between delegation and LP rewards\n\n"
  | .aggressive =>
    "🔴 Aggressive Flare DeFi Strategy\n"
      ++ "- Focus on high-yield opportunities in the Flare ecosystem\n"
      ++ "- Active trading and yield farming\n"
      ++ "- Recommended allocation:\n"
      ++ "  • 30% FLR delegation\n"
      ++ "  • 40% yield farming on new protocols\n"
      ++ "  • 30% active LP position management\n\n"
      ++ "💡 Transition Strategy from TradFi:\n"
      ++ "- Actively participate in new Flare protocols\n"
      ++ "- Leverage your trading experience in DeFi\n"
      ++ "- Explore advanced strategies across the ecosystem\n\n"

/-- Truthiness of an optional JS string: present and non-empty. -/
def jsStrTruthy (o : Option String) : Bool :=
  match o with
  | some s => s ≠ ""
  | none => false

/-- The second variant's `generateRiskProfile` (ChatInterface.tsx lines
1204-1276), including the portfolio-analysis prefix logic. -/
def generateRiskProfile (answers : QuizAnswers)
    (portfolioImage portfolioAnalysis : Option String) : String :=
  let _ := portfolioImage
  let riskScore := riskScoreV2 answers
  let profile := "Based on your responses"
  let profile := profile ++ (if jsStrTruthy portfolioAnalysis then " and portfolio analysis" else "")
  let profile := profile ++ ", here's your Flare DeFi investment profile:\n\n"
  let profile := profile ++
    (match portfolioAnalysis with
     | some a => if a ≠ "" then "📊 Current Portfolio Analysis:\n" ++ a ++ "\n\n" else ""
     | none => "")
  let profile := profile ++
    (if riskScore ≤ 4 then strategyBlockV2 .conservative
     else if riskScore ≤ 7 then strategyBlockV2 .moderate
     else strategyBlockV2 .aggressive)
  profile ++ "You can now continue chatting with me for specific recommendations about Flare protocols and how to implement this strategy!"

/-- The tier selected by the second variant's threshold chain. -/
def riskTierV2 (answers : QuizAnswers) : Tier :=
  let riskScore := riskScoreV2 answers
  if riskScore ≤ 4 then .conservative
  else if riskScore ≤ 7 then .moderate
  else .aggressive

/-- One entry of `RISK_QUESTIONS` (ChatInterface.tsx lines 43-47). -/
structure QuestionOption where
  id : String
  question : String
  options : List String

/-- The `RISK_QUESTIONS` constant (ChatInterface.tsx lines 95-123). -/
def RISK_QUESTIONS : List QuestionOption :=
  [ { id := "experience"
      question := "What is your level of investment experience?"
      options :=
        [ "Beginner - New to investing"
        , "Intermediate - Some experience with stocks/funds"
        , "Advanced - Experienced with various investment types" ] }
  , { id := "timeline"
      question := "What is your investment timeline?"
      options :=
        [ "Short-term (< 1 year)"
        , "Medium-term (1-5 years)"
        , "Long-term (5+ years)" ] }
  , { id := "risk_tolerance"
      question := "How would you react to a 20% drop in your investment?"
      options :=
        [ "Sell immediately to prevent further losses"
        , "Hold and wait for recovery"
        , "Buy more to average down" ] } ]

/-- The `RiskAssessmentState` view-model (ChatInterface.tsx lines 35-41). -/
structure RiskAssessmentState where
  isComplete : Bool
  currentQuestion : Nat
  answers : QuizAnswers
  portfolioImage : Option String
  portfolioAnalysis : Option String

/-- The initial `riskAssessment` state (ChatInterface.tsx lines 223-229). -/
def initialRiskAssessment : RiskAssessmentState :=
  { isComplete := false
    currentQuestion := 0
    answers := { experience := none, timeline := none, risk_tolerance := none }
    portfolioImage := none
    portfolioAnalysis := none }

/-- The computed-key spread `{ ...answers, [currentQ.id]: answer }` over the
three fixed question ids occurring in `RISK_QUESTIONS`. -/
def setAnswer (answers : QuizAnswers) (id val : String) : QuizAnswers :=
  if id = "experience" then { answers with experience := some val }
  else if id = "timeline" then { answers with timeline := some val }
  else if id = "risk_tolerance" then { answers with risk_tolerance := some val }
  else answers

/-- The id of the question at `idx`, as read from `RISK_QUESTIONS`. -/
def questionId (idx : Nat) : String :=
  match RISK_QUESTIONS[idx]? with
  | some q => q.id
  | none => ""

/-- `handleAnswerSelect` of the first variant (ChatInterface.tsx lines 493-522).
Returns the updated state and the messages appended; `none` models the TypeError
JavaScript raises when `RISK_QUESTIONS[currentQuestion]` is `undefined` and its
`.id` is read (never reached from a state with `currentQuestion` in range). -/
def handleAnswerSelect (st : RiskAssessmentState) (answer : String) :
    Option (RiskAssessmentState × List Message) :=
  if jsStrTruthy st.portfolioImage then some (st, [])
  else
    match RISK_QUESTIONS[st.currentQuestion]? with
    | none => none
    | some currentQ =>
      let newAnswers := setAnswer st.answers currentQ.id answer
      if st.currentQuestion = RISK_QUESTIONS.length - 1 then
        some ({ st with isComplete := true, answers := newAnswers },
          [ mkUserMessage answer none
          , mkBotMessage (generateRiskProfileFromQuiz newAnswers) ])
      else
        some ({ st with currentQuestion := st.currentQuestion + 1, answers := newAnswers },
          [ mkUserMessage answer none
          , mkBotMessage (match RISK_QUESTIONS[st.currentQuestion + 1]? with
                          | some q => q.question
                          | none => "undefined") ])

/-- Iterated quiz interaction: fold `handleAnswerSelect` over a list of clicked
answers (an exception, impossible from reachable states, would stop the run). -/
def runAnswers (st : RiskAssessmentState) : List String → RiskAssessmentState
  | [] => st
  | a :: rest =>
    match handleAnswerSelect st a with
    | some (st', _) => runAnswers st' rest
    | none => st

/-- A browser `File` as consumed by the upload handlers: its `size` in bytes
and its MIME `type`. -/
structure JsFile where
  name : String
  size : Nat
  type : String

/-- `validateFile` (ChatInterface.tsx lines 197-207); the source default for
`maxSize` is `4 * 1024 * 1024`, passed explicitly here. -/
def validateFile (file : JsFile) (maxSize : Nat) : Option String :=
  if file.size > maxSize then
    some "The image file is too large. Please upload an image smaller than 4MB."
  else if ¬ (jsStartsWith file.type "image/") then
    some "Please upload a valid image file (JPEG, PNG, etc)."
  else
    none

/-- Observable actions of the image-upload handlers. -/
inductive UploadEffect where
  | botMessage (text : String)
  | consoleLog
  | readFile
deriving DecidableEq

/-- Synchronous behaviour of `handleImageUpload` in the first variant
(ChatInterface.tsx lines 366-454): validation gates the debug log and the
`FileReader.readAsDataURL` call; network traffic happens only later, inside
the reader's `onloadend` continuation. -/
def handleImageUpload (file : Option JsFile) : List UploadEffect :=
  match file with
  | none => []
  | some f =>
    match validateFile f (4 * 1024 * 1024) with
    | some errorMessage => [.botMessage errorMessage]
    | none => [.consoleLog, .readFile]

/-- Synchronous behaviour of `handleImageUpload` in the second variant
(ChatInterface.tsx lines 1122-1202), which inlines the same two checks in the
same order with the same message strings. -/
def handleImageUploadV2 (file : Option JsFile) : List UploadEffect :=
  match file with
  | none => []
  | some f =>
    if f.size > 4 * 1024 * 1024 then
      [.botMessage "The image file is too large. Please upload an image smaller than 4MB."]
    else if ¬ (jsStartsWith f.type "image/") then
      [.botMessage "Please upload a valid image file (JPEG, PNG, etc)."]
    else
      [.consoleLog, .readFile]

/-- JavaScript/JSON values as consumed by the chat handlers. Numbers are
modelled as integers: every numeric payload read here (value, gas, nonce,
chainId, risk_score) is integral. -/
inductive Json where
  | null
  | bool (b : Bool)
  | num (n : Int)
  | str (s : String)
  | arr (items : List Json)
  | obj (fields : List (String × Json))

/-- First-match field lookup (the payloads carry no duplicate keys). -/
def lookupField : List (String × Json) → String → Option Json
  | [], _ => none
  | (k, v) :: rest, key => if k = key then some v else lookupField rest key

/-- JS property access `j[key]`: `none` models `undefined`, which is what
property access on non-object values yields for these keys. -/
def jsGet (j : Json) (key : String) : Option Json :=
  match j with
  | .obj fields => lookupField fields key
  | _ => none

/-- JS truthiness of a value. -/
def jsTruthy : Json → Bool
  | .null => false
  | .bool b => b
  | .num n => n ≠ 0
  | .str s => s ≠ ""
  | .arr _ => true
  | .obj _ => true

/-- Truthiness of a possibly-`undefined` value. -/
def optTruthy (o : Option Json) : Bool :=
  match o with
  | some j => jsTruthy j
  | none => false

/-- Opening brace, written by code point to keep it out of source literals. -/
def jpLBrace : Char := Char.ofNat 123

/-- Closing brace. -/
def jpRBrace : Char := Char.ofNat 125

/-- Opening square bracket. -/
def jpLBracket : Char := Char.ofNat 91

/-- Closing square bracket. -/
def jpRBracket : Char := Char.ofNat 93

/-- Double quote. -/
def jpQuote : Char := Char.ofNat 34

/-- Skip JSON whitespace. -/
def jpSkipWs : List Char → List Char
  | [] => []
  | c :: cs => if c = ' ' || c = '\n' || c = '\t' || c = '\r' then jpSkipWs cs else c :: cs

/-- Scan a JSON string body (after the opening quote), handling the common
escapes; fails on malformed input as `JSON.parse` throws. -/
def jpStringAux (acc : List Char) : List Char → Option (String × List Char)
  | [] => none
  | c :: cs =>
    if c = jpQuote then some (String.mk acc.reverse, cs)
    else if c = '\\' then
      match cs with
      | [] => none
      | e :: cs2 =>
        if e = jpQuote then jpStringAux (jpQuote :: acc) cs2
        else if e = '\\' then jpStringAux ('\\' :: acc) cs2
        else if e = 'n' then jpStringAux ('\n' :: acc) cs2
        else if e = 't' then jpStringAux ('\t' :: acc) cs2
        else if e = 'r' then jpStringAux ('\r' :: acc) cs2
        else if e = '/' then jpStringAux ('/' :: acc) cs2
        else none
    else jpStringAux (c :: acc) cs

/-- Accumulate a run of decimal digits. -/
def jpDigitsAux (acc : Nat) : List Char → Nat × List Char
  | [] => (acc, [])
  | c :: cs => if c.isDigit then jpDigitsAux (acc * 10 + (c.toNat - 48)) cs else (acc, c :: cs)

/-- Parse an integer JSON number (the numeric fragment these payloads use). -/
def jpNumber : List Char → Option (Json × List Char)
  | [] => none
  | c :: rest =>
    if c = '-' then
      match rest with
      | d :: _ =>
        if d.isDigit then
          let p := jpDigitsAux 0 rest
          some (.num (-(p.1 : Int)), p.2)
        else none
      | [] => none
    else if c.isDigit then
      let p := jpDigitsAux 0 (c :: rest)
      some (.num (p.1 : Int), p.2)
    else none

mutual

/-- Fuel-indexed recursive-descent JSON value parser. -/
def jpValue : Nat → List Char → Option (Json × List Char)
  | 0, _ => none
  | Nat.succ fuel, cs0 =>
    match jpSkipWs cs0 with
    | [] => none
    | c :: rest =>
      if c = jpQuote then
        match jpStringAux [] rest with
        | some (s, r) => some (.str s, r)
        | none => none
      else if c = jpLBrace then jpMembers fuel (jpSkipWs rest) []
      else if c = jpLBracket then jpItems fuel (jpSkipWs rest) []
      else
        match c :: rest with
        | 'n' :: 'u' :: 'l' :: 'l' :: r => some (.null, r)
        | 't' :: 'r' :: 'u' :: 'e' :: r => some (.bool true, r)
        | 'f' :: 'a' :: 'l' :: 's' :: 'e' :: r => some (.bool false, r)
        | l => jpNumber l

/-- Parse array items after the opening bracket. -/
def jpItems : Nat → List Char → List Json → Option (Json × List Char)
  | 0, _, _ => none
  | Nat.succ fuel, cs, acc =>
    match jpSkipWs cs with
    | [] => none
    | c :: rest =>
      if c == jpRBracket && acc.isEmpty then some (.arr [], rest)
      else
        match jpValue fuel (c :: rest) with
        | none => none
        | some (v, cs2) =>
          match jpSkipWs cs2 with
          | [] => none
          | d :: rest2 =>
            if d = ',' then jpItems fuel rest2 (acc ++ [v])
            else if d = jpRBracket then some (.arr (acc ++ [v]), rest2)
            else none

/-- Parse object members after the opening brace. -/
def jpMembers : Nat → List Char → List (String × Json) → Option (Json × List Char)
  | 0, _, _ => none
  | Nat.succ fuel, cs, acc =>
    match jpSkipWs cs with
    | [] => none
    | c :: rest =>
      if c == jpRBrace && acc.isEmpty then some (.obj [], rest)
      else if c = jpQuote then
        match jpStringAux [] rest with
        | none => none
        | some (k, cs2) =>
          match jpSkipWs cs2 with
          | ':' :: cs3 =>
            match jpValue fuel cs3 with
            | none => none
            | some (v, cs4) =>
              match jpSkipWs cs4 with
              | [] => none
              | d :: rest2 =>
                if d = ',' then jpMembers fuel (jpSkipWs rest2) (acc ++ [(k, v)])
                else if d = jpRBrace then some (.obj (acc ++ [(k, v)]), rest2)
                else none
          | _ => none
      else none

end

/-- `JSON.parse` on the integer/escaped-string fragment used by these payloads;
`none` models the thrown `SyntaxError` (including trailing garbage). -/
def jsonParse (s : String) : Option Json :=
  match jpValue (2 * s.length + 2) s.toList with
  | some (j, rest) => if (jpSkipWs rest).isEmpty then some j else none
  | none => none

/-- A thrown JS error, reduced to its optional `message`. -/
abbrev JsError := Option String

/-- Strict decimal integer reading for string coercions. -/
def parseDecInt (cs : List Char) : Option Int :=
  match cs with
  | [] => none
  | c :: rest =>
    if c = '-' then
      match rest with
      | d :: _ =>
        if d.isDigit && (jpDigitsAux 0 rest).2.isEmpty then
          some (-(((jpDigitsAux 0 rest).1 : Int)))
        else none
      | [] => none
    else if c.isDigit && (jpDigitsAux 0 cs).2.isEmpty then
      some ((jpDigitsAux 0 cs).1 : Int)
    else none

/-- `BigInt(s)` on a string: trims whitespace, maps the empty string to 0,
accepts a decimal integer, and otherwise throws (the hexadecimal and exotic
coercion forms are outside the payloads modelled here). -/
def jsBigIntOfString (s : String) : Option Int :=
  let t := jsTrim s
  if t = "" then some 0 else parseDecInt t.toList

/-- `BigInt(x)` on a possibly-`undefined` value: `undefined`, `null`, and
unconvertible strings throw (modelled as `.error`); booleans and integral
numbers convert. Composite values, which the backend never places in the
numeric transaction fields, are modelled as throwing. -/
def jsBigInt : Option Json → Except JsError Int
  | none => .error (some "Cannot convert undefined to a BigInt")
  | some .null => .error (some "Cannot convert null to a BigInt")
  | some (.bool b) => .ok (if b then 1 else 0)
  | some (.num n) => .ok n
  | some (.str s) =>
    match jsBigIntOfString s with
    | some n => .ok n
    | none => .error (some ("Cannot convert " ++ s ++ " to a BigInt"))
  | some (.arr _) => .error (some "Cannot convert an array to a BigInt")
  | some (.obj _) => .error (some "Cannot convert an object to a BigInt")

/-- `Number(x)` on a possibly-`undefined` value; `none` models `NaN`.
`Number` never throws. Composite coercions are outside the modelled payloads. -/
def jsNumber : Option Json → Option Int
  | none => none
  | some .null => some 0
  | some (.bool b) => some (if b then 1 else 0)
  | some (.num n) => some n
  | some (.str s) =>
    let t := jsTrim s
    if t = "" then some 0 else parseDecInt t.toList
  | some (.arr _) => none
  | some (.obj _) => none

/-- The `formattedTx` object literal built by `sendMessageToAPI`
(ChatInterface.tsx lines 564-571): exactly the six fields `to`, `data`,
`value`, `gas`, `nonce`, `chainId`. `to` and `data` are plain casts (no
conversion); `value` and `gas` go through `BigInt`; `nonce` and `chainId`
through `Number` (where `none` models `NaN`). -/
structure FormattedTx where
  «to» : Option Json
  data : Option Json
  value : Int
  gas : Int
  nonce : Option Int
  chainId : Option Int

/-- The `typeof data.transaction === "string" ? JSON.parse(data.transaction)
: data.transaction` normalisation (lines 560-563); a parse failure is the
thrown `SyntaxError`. -/
def normalizeTx : Json → Except JsError Json
  | .str s =>
    match jsonParse s with
    | some j => .ok j
    | none => .error (some "Unexpected token in JSON")
  | j => .ok j

/-- Construction of `formattedTx` from the (normalised) transaction payload
(lines 564-571). JS evaluates the fields in order and can only throw at the
two `BigInt` conversions. -/
def formatTx (txData : Json) : Except JsError FormattedTx :=
  match jsBigInt (jsGet txData "value") with
  | .error e => .error e
  | .ok value =>
    match jsBigInt (jsGet txData "gas") with
    | .error e => .error e
    | .ok gas =>
      .ok
        { «to» := jsGet txData "to"
          data := jsGet txData "data"
          value := value
          gas := gas
          nonce := jsNumber (jsGet txData "nonce")
          chainId := jsNumber (jsGet txData "chainId") }

/-- The backend JSON body as consumed by `sendMessageToAPI`: the `response`
text, and the single optional `transaction` field (`data.transaction`). -/
structure BackendData where
  response : String
  transaction : Option Json

/-- Observable external actions of `sendMessageToAPI`. `receiptQuery` is the
vocabulary for a transaction-confirmation lookup; the code never issues one. -/
inductive ApiEffect where
  | fetchPost
  | consoleLog
  | consoleError
  | sendTx (tx : FormattedTx)
  | receiptQuery (hash : String)

/-- Outcome of the `fetch` call: a rejected promise, or an HTTP response with
its `ok` flag and its JSON body (`none` models a body `.json()` chokes on). -/
inductive FetchOutcome where
  | netError
  | resp (ok : Bool) (body : Option BackendData)

/-- Outcome of `walletClient.sendTransaction`: a hash, or a rejection whose
error carries an optional `message`. -/
inductive WalletSend where
  | ok (hash : String)
  | err (message : Option String)

/-- `error.message || "Transaction was rejected or failed."`: an absent or
empty (falsy) message falls back to the default. -/
def jsMsgOr (m : Option String) : String :=
  match m with
  | some s => if s = "" then "Transaction was rejected or failed." else s
  | none => "Transaction was rejected or failed."

/-- The `try` block of `sendMessageToAPI` (ChatInterface.tsx lines 535-581):
an `Except` result (errors are what the block throws) together with the
external actions performed before returning or throwing. The inner
transaction `try/catch` (lines 559-578) is resolved inside this definition,
so only the fetch/response/json steps can yield `.error`. -/
def sendMessageToAPIBody (f : FetchOutcome) (hasWallet : Bool) (w : WalletSend) :
    Except JsError String × List ApiEffect :=
  match f with
  | .netError => (.error (some "Failed to fetch"), [.fetchPost])
  | .resp ok body =>
    if ok then
      match body with
      | none => (.error (some "Unexpected end of JSON input"), [.fetchPost])
      | some data =>
        match data.transaction with
        | some t =>
          if jsTruthy t && hasWallet then
            match normalizeTx t >>= formatTx with
            | .error e =>
              (.ok (data.response ++ "\n\nError: " ++ jsMsgOr e),
               [.fetchPost, .consoleLog, .consoleError])
            | .ok ftx =>
              match w with
              | .ok hash =>
                (.ok (data.response ++ "\n\nTransaction sent! Hash: " ++ hash),
                 [.fetchPost, .consoleLog, .sendTx ftx])
              | .err m =>
                (.ok (data.response ++ "\n\nError: " ++ jsMsgOr m),
                 [.fetchPost, .consoleLog, .sendTx ftx, .consoleError])
          else (.ok data.response, [.fetchPost, .consoleLog])
        | none => (.ok data.response, [.fetchPost, .consoleLog])
    else (.error (some "Network response was not ok"), [.fetchPost])

/-- `sendMessageToAPI` (ChatInterface.tsx lines 534-586): the outer `catch`
turns every thrown error into the fixed apology string, so the function
always resolves with a `String`. -/
def sendMessageToAPI (f : FetchOutcome) (hasWallet : Bool) (w : WalletSend) :
    String × List ApiEffect :=
  match sendMessageToAPIBody f hasWallet w with
  | (.ok s, effs) => (s, effs)
  | (.error _, effs) =>
    ("Sorry, there was an error processing your request. Please try again.", effs ++ [.consoleError])

/-- Recogniser for the wallet-signing action. -/
def isSendTx : ApiEffect → Bool
  | .sendTx _ => true
  | _ => false

/-- Recogniser for a transaction-confirmation lookup. -/
def isReceiptQuery : ApiEffect → Bool
  | .receiptQuery _ => true
  | _ => false

/-- The transactions a response carries in the spec's reading. Modelled from
the spec: "receiving a JSON response containing a text reply and optionally
one or more pending blockchain transactions"; a list-valued `transaction`
field carries each element as one pending transaction. -/
def specPendingTxs (d : BackendData) : List Json :=
  match d.transaction with
  | none => []
  | some (.arr l) => l
  | some j => [j]

/-- `chatImagePreview || undefined`: an empty (falsy) preview becomes
`undefined`. -/
def jsOrUndefined (o : Option String) : Option String :=
  match o with
  | some s => if s = "" then none else some s
  | none => none

/-- The component state of the first ChatInterface variant touched by
`handleSubmit` (ChatInterface.tsx lines 212-229). -/
structure ChatState where
  messages : List Message
  inputText : String
  isLoading : Bool
  awaitingConfirmation : Bool
  pendingTransaction : Option String
  selectedChatImage : Option JsFile
  chatImagePreview : Option String

/-- The early-return guard of `handleSubmit` (line 591):
`(!inputText.trim() && !selectedChatImage) || isLoading`. -/
def submitGuard (st : ChatState) : Bool :=
  (jsTrim st.inputText == "" && st.selectedChatImage.isNone) || st.isLoading

/-- `handleSubmit` of the first variant (ChatInterface.tsx lines 589-625), run
to completion of the async handler. The request payload (message text, wallet
address, image) only shapes the backend's reply, which the `FetchOutcome`
oracle summarises. Returns the final state and the external actions. -/
def handleSubmit (st : ChatState) (f : FetchOutcome) (hasWallet : Bool) (w : WalletSend) :
    ChatState × List ApiEffect :=
  if submitGuard st then (st, [])
  else
    let messageText := jsTrim st.inputText
    let st1 : ChatState :=
      { st with
        messages := st.messages ++ [mkUserMessage messageText (jsOrUndefined st.chatImagePreview)]
        inputText := ""
        selectedChatImage := none
        chatImagePreview := none
        isLoading := true }
    if st.awaitingConfirmation then
      if jsToUpper messageText = "CONFIRM" then
        let r := sendMessageToAPI f hasWallet w
        ({ st1 with
            awaitingConfirmation := false
            messages := st1.messages ++ [mkBotMessage r.1]
            isLoading := false }, r.2)
      else
        ({ st1 with
            awaitingConfirmation := false
            pendingTransaction := none
            messages := st1.messages ++ [mkBotMessage "Transaction cancelled. How else can I help you?"]
            isLoading := false }, [])
    else
      let r := sendMessageToAPI f hasWallet w
      ({ st1 with
          messages := st1.messages ++ [mkBotMessage r.1]
          isLoading := false }, r.2)

/-- A part_002 message, appended without any typing placeholder. -/
def mkBotMessageP2 (text : String) : Message :=
  { text := text, type := .bot, imageData := none, isTyping := false }

/-- The component state of the part_002 ChatInterface variant. -/
structure ChatStateP2 where
  messages : List Message
  inputText : String
  isLoading : Bool
  awaitingConfirmation : Bool
  pendingTransaction : Option String

/-- Outcome of the part_002 `fetch`: rejection, or a response with its `ok`
flag and the `response` string of its JSON body (`none` models a body whose
`.json()` or field access fails). -/
inductive FetchOutcomeP2 where
  | netError
  | resp (ok : Bool) (body : Option String)

/-- `handleSendMessage` of part_002 (lines 42-69): resolves with the reply
text (or the apology string on any thrown error), and reports whether the
reply contains "Transaction Preview:" — in which case the source sets
`awaitingConfirmation` and stores the sent text as `pendingTransaction`. -/
def handleSendMessageP2 (f : FetchOutcomeP2) : String × Bool :=
  match f with
  | .netError => ("Sorry, there was an error processing your request. Please try again.", false)
  | .resp ok body =>
    if ok then
      match body with
      | none => ("Sorry, there was an error processing your request. Please try again.", false)
      | some response => (response, jsIncludes response "Transaction Preview:")
    else ("Sorry, there was an error processing your request. Please try again.", false)

/-- `handleSubmit` of part_002 (lines 71-100), run to completion. In the
CONFIRM branch the text sent is the stored `pendingTransaction`, so a renewed
preview leaves `pendingTransaction` unchanged. -/
def handleSubmitP2 (st : ChatStateP2) (f : FetchOutcomeP2) : ChatStateP2 :=
  if jsTrim st.inputText == "" || st.isLoading then st
  else
    let messageText := jsTrim st.inputText
    let st1 : ChatStateP2 :=
      { st with
        inputText := ""
        isLoading := true
        messages := st.messages ++ [mkUserMessage messageText none] }
    if st.awaitingConfirmation then
      if jsToUpper messageText = "CONFIRM" then
        let r := handleSendMessageP2 f
        { st1 with
            awaitingConfirmation := r.2
            messages := st1.messages ++ [mkBotMessageP2 r.1]
            isLoading := false }
      else
        { st1 with
            awaitingConfirmation := false
            pendingTransaction := none
            messages := st1.messages ++ [mkBotMessageP2 "Transaction cancelled. How else can I help you?"]
            isLoading := false }
    else
      let r := handleSendMessageP2 f
      { st1 with
          awaitingConfirmation := r.2
          pendingTransaction := if r.2 then some messageText else st.pendingTransaction
          messages := st1.messages ++ [mkBotMessageP2 r.1]
          isLoading := false }

/-- An in-flight `sendMessageToAPI` invocation: the awaited call's arguments
as captured by `handleSubmit` before suspending. -/
structure PendingCall where
  messageText : String
  image : Option JsFile

/-- A state of the browser event loop running the first ChatInterface variant:
the component state plus the at-most-one suspended API call. -/
structure LoopState where
  chat : ChatState
  pending : Option PendingCall

/-- User-interface and completion events. `setInput` is a change event on the
text input (or a quick-action fill); `submit` runs `handleSubmit` up to its
first `await`; `apiReturn r` is the suspended call resolving with text `r`. -/
inductive UiEvent where
  | setInput (s : String)
  | submit
  | apiReturn (r : String)

/-- Small-step semantics of the first variant under the single-threaded
cooperative event loop (ChatInterface.tsx lines 589-625): `submit` executes
the synchronous prefix of `handleSubmit` (guard, user message, input reset,
`isLoading := true`, confirmation branching) and suspends at the API call;
`apiReturn` executes the continuation (bot message, `isLoading := false`).
There is no transition that drops or replaces a pending call. -/
def stepLoop (ls : LoopState) (ev : UiEvent) : LoopState :=
  match ev with
  | .setInput s => { ls with chat := { ls.chat with inputText := s } }
  | .submit =>
    if submitGuard ls.chat then ls
    else
      let messageText := jsTrim ls.chat.inputText
      let chat1 : ChatState :=
        { ls.chat with
          messages := ls.chat.messages
            ++ [mkUserMessage messageText (jsOrUndefined ls.chat.chatImagePreview)]
          inputText := ""
          selectedChatImage := none
          chatImagePreview := none
          isLoading := true }
      if ls.chat.awaitingConfirmation then
        if jsToUpper messageText = "CONFIRM" then
          { chat := { chat1 with awaitingConfirmation := false }
            pending := some { messageText := ls.chat.pendingTransaction.getD "null", image := none } }
        else
          { chat :=
              { chat1 with
                awaitingConfirmation := false
                pendingTransaction := none
                messages := chat1.messages
                  ++ [mkBotMessage "Transaction cancelled. How else can I help you?"]
                isLoading := false }
            pending := ls.pending }
      else
        { chat := chat1
          pending := some { messageText := messageText, image := ls.chat.selectedChatImage } }
  | .apiReturn r =>
    match ls.pending with
    | none => ls
    | some _ =>
      { chat :=
          { ls.chat with
            messages := ls.chat.messages ++ [mkBotMessage r]
            isLoading := false }
        pending := none }

/-- `x.toFixed(2)` on an exact rational: round `x * 100` to the nearest
integer (ties toward positive infinity, as ECMA-262 picks the larger
candidate) and render with two decimals. -/
def toFixed2 (q : ℚ) : String :=
  let n : Int := Rat.floor (q * 100 + 1 / 2)
  let a := n.natAbs
  (if n < 0 then "-" else "")
    ++ toString (a / 100) ++ "."
    ++ (if a % 100 < 10 then "0" else "") ++ toString (a % 100)

/-- Replace the first occurrence of `pat` (JS `String.prototype.replace` with
a string pattern replaces only the first match; absent pattern leaves the
input unchanged). -/
def jsReplaceFirstList (pat rep : List Char) : List Char → List Char
  | [] => if pat.isEmpty then rep else []
  | c :: rest =>
    if pat.isPrefixOf (c :: rest) then rep ++ (c :: rest).drop pat.length
    else c :: jsReplaceFirstList pat rep rest

/-- String-level wrapper for `jsReplaceFirstList`. -/
def jsReplaceFirst (s pat rep : String) : String :=
  String.mk (jsReplaceFirstList pat.toList rep.toList s.toList)

/-- Step kind of a strategy step (types/strategy, used by both visualizers and
the executor). -/
inductive StepType where
  | hold
  | stake
  | lp
  | swap
deriving DecidableEq

/-- A strategy step: kind, description, percentage allocation, and the chat
command template containing the placeholder `{amount}`. -/
structure StrategyStep where
  type : StepType
  description : String
  percentage : ℚ
  command : String

/-- A strategy: title plus ordered steps. -/
structure Strategy where
  title : String
  steps : List StrategyStep

/-- `DEFAULT_STRATEGY` of the first StrategyVisualizer variant (lines 7-29). -/
def DEFAULT_STRATEGY : Strategy :=
  { title := "🟡 Moderate Flare DeFi Strategy"
    steps :=
      [ { type := .stake
          description := "Stake FLR tokens for FTSO delegation"
          percentage := 40
          command := "stake {amount} FLR" }
      , { type := .lp
          description := "Provide liquidity in mixed pairs"
          percentage := 40
          command := "add_liquidity {amount} FLR-USDC.e" }
      , { type := .swap
          description := "Yield farming on Flare Finance"
          percentage := 20
          command := "swap {amount} FLR FLX" } ] }

/-- `DEFAULT_STRATEGY` of the second StrategyVisualizer variant (lines
264-286); only the lp and swap command templates differ. -/
def DEFAULT_STRATEGY_V2 : Strategy :=
  { title := "🟡 Moderate Flare DeFi Strategy"
    steps :=
      [ { type := .stake
          description := "Stake FLR tokens for FTSO delegation"
          percentage := 40
          command := "stake {amount} FLR" }
      , { type := .lp
          description := "Provide liquidity in mixed pairs"
          percentage := 40
          command := "pool add {amount} FLR USDC.e" }
      , { type := .swap
          description := "Yield farming on Flare Finance"
          percentage := 20
          command := "swap {amount} FLR to FLX" } ] }

/-- `calculateStepAmount` of the first visualizer variant (lines 46-49):
`(parseFloat(amount) * percentage / 100).toFixed(2)`. `none` models a
`parseFloat` NaN, which `toFixed` renders as "NaN". -/
def calculateStepAmount (amount : Option ℚ) (percentage : ℚ) : String :=
  match amount with
  | none => "NaN"
  | some baseAmount => toFixed2 (baseAmount * percentage / 100)

/-- `calculateStepAmount` of the second visualizer variant (lines 304-308),
which guards NaN and returns "0". -/
def calculateStepAmountV2 (amount : Option ℚ) (percentage : ℚ) : String :=
  match amount with
  | none => "0"
  | some totalAmount => toFixed2 (totalAmount * percentage / 100)

/-- Observable actions of a strategy-step execution on its non-throwing run
(the only run possible here: the awaited promise is a plain timer).
`httpRequest`, `walletCall` and `receiptPoll` are the vocabulary for network,
signing and confirmation-lookup actions; the step handlers never emit them. -/
inductive StepEffect where
  | setExecuting (b : Bool)
  | fillCommand (command : String)
  | wait (ms : Nat)
  | advanceStep
  | setProgress (value : ℚ)
  | httpRequest (url : String)
  | walletCall
  | receiptPoll

/-- `executeStep` of the first StrategyVisualizer variant (lines 51-70):
fill the chat input via the parent callback, wait a fixed 1000 ms, advance
to the next step. -/
def executeStepVis1 (hasCallback : Bool) (amount : Option ℚ) (step : StrategyStep) :
    List StepEffect :=
  let stepAmount := calculateStepAmount amount step.percentage
  let command := jsReplaceFirst step.command "{amount}" stepAmount
  [StepEffect.setExecuting true]
    ++ (if hasCallback then [StepEffect.fillCommand command] else [])
    ++ [StepEffect.wait 1000, StepEffect.advanceStep, StepEffect.setExecuting false]

/-- `executeStep` of the second StrategyVisualizer variant (lines 310-322):
fill the chat input via the optional-chaining callback and advance, with no
delay. -/
def executeStepVis2 (hasCallback : Bool) (amount : Option ℚ) (step : StrategyStep) :
    List StepEffect :=
  let stepAmount := calculateStepAmountV2 amount step.percentage
  let formattedCommand := jsReplaceFirst step.command "{amount}" stepAmount
  [StepEffect.setExecuting true]
    ++ (if hasCallback then [StepEffect.fillCommand formattedCommand] else [])
    ++ [StepEffect.advanceStep, StepEffect.setExecuting false]

/-- `executeStep` of StrategyExecutor (lines 37-55): the formatted command is
computed but unused; the handler waits a fixed 2000 ms ("simulate the
execution"), advances, and updates the progress bar. -/
def executeStepExec (amount : Option ℚ) (step : StrategyStep)
    (currentStep stepsLen : Nat) : List StepEffect :=
  let _ := jsReplaceFirst step.command "{amount}" (calculateStepAmount amount step.percentage)
  [ StepEffect.setExecuting true
  , StepEffect.wait 2000
  , StepEffect.advanceStep
  , StepEffect.setProgress (((currentStep : ℚ) + 1) / (stepsLen : ℚ) * 100)
  , StepEffect.setExecuting false ]

/-- Recogniser for a transaction-confirmation lookup among step effects. -/
def isConfirmationEffect : StepEffect → Bool
  | .receiptPoll => true
  | _ => false

/-- Recogniser for network or wallet actions among step effects. -/
def isNetworkEffect : StepEffect → Bool
  | .httpRequest _ => true
  | .walletCall => true
  | _ => false

/-- Recogniser for an unconditional timer wait among step effects. -/
def isWaitEffect : StepEffect → Bool
  | .wait _ => true
  | _ => false

/-- C1: the quiz risk score is the additive sum of the three per-question
contributions (1 for an answer containing the Beginner/Short-term/Sell
immediately keyword, 2 for Intermediate/Medium-term/Hold, 3 for
Advanced/Long-term/Buy more — each under the source's else-if precedence —
and 0 for an absent answer), and the selected profile is conservative iff the
score is ≤ 4, moderate iff it is between 5 and 7, and aggressive otherwise;
`generateRiskProfileFromScore` applies the same two thresholds to the
backend-supplied risk_score. -/
theorem claim_C1 (answers : QuizAnswers) (risk_score : Int) :
    quizRiskScore answers
      = scoreExperience answers.experience + scoreTimeline answers.timeline
        + scoreRiskTolerance answers.risk_tolerance
  ∧ scoreExperience none = 0 ∧ scoreTimeline none = 0 ∧ scoreRiskTolerance none = 0
  ∧ (∀ s, jsIncludes s "Beginner" = true → scoreExperience (some s) = 1)
  ∧ (∀ s, jsIncludes s "Beginner" = false → jsIncludes s "Intermediate" = true →
      scoreExperience (some s) = 2)
  ∧ (∀ s, jsIncludes s "Beginner" = false → jsIncludes s "Intermediate" = false →
      jsIncludes s "Advanced" = true → scoreExperience (some s) = 3)
  ∧ (∀ s, jsIncludes s "Short-term" = true → scoreTimeline (some s) = 1)
  ∧ (∀ s, jsIncludes s "Short-term" = false → jsIncludes s "Medium-term" = true →
      scoreTimeline (some s) = 2)
  ∧ (∀ s, jsIncludes s "Short-term" = false → jsIncludes s "Medium-term" = false →
      jsIncludes s "Long-term" = true → scoreTimeline (some s) = 3)
  ∧ (∀ s, jsIncludes s "Sell immediately" = true → scoreRiskTolerance (some s) = 1)
  ∧ (∀ s, jsIncludes s "Sell immediately" = false → jsIncludes s "Hold" = true →
      scoreRiskTolerance (some s) = 2)
  ∧ (∀ s, jsIncludes s "Sell immediately" = false → jsIncludes s "Hold" = false →
      jsIncludes s "Buy more" = true → scoreRiskTolerance (some s) = 3)
  ∧ generateRiskProfileFromQuiz answers = formatRiskProfile (quizTier answers)
  ∧ (quizTier answers = .conservative ↔ quizRiskScore answers ≤ 4)
  ∧ (quizTier answers = .moderate ↔ (5 ≤ quizRiskScore answers ∧ quizRiskScore answers ≤ 7))
  ∧ (quizTier answers = .aggressive ↔ 8 ≤ quizRiskScore answers)
  ∧ generateRiskProfileFromScore risk_score = formatRiskProfile (scoreTier risk_score)
  ∧ (scoreTier risk_score = .conservative ↔ risk_score ≤ 4)
  ∧ (scoreTier risk_score = .moderate ↔ (4 < risk_score ∧ risk_score ≤ 7))
  ∧ (scoreTier risk_score = .aggressive ↔ 7 < risk_score) := by
  refine ⟨rfl, rfl, rfl, rfl, ?_, ?_, ?_, ?_, ?_, ?_, ?_, ?_, ?_, ?_, ?_, ?_, ?_, ?_, ?_, ?_, ?_⟩
  · intro s h; simp [scoreExperience, h]
  · intro s h1 h2; simp [scoreExperience, h1, h2]
  · intro s h1 h2 h3; simp [scoreExperience, h1, h2, h3]
  · intro s h; simp [scoreTimeline, h]
  · intro s h1 h2; simp [scoreTimeline, h1, h2]
  · intro s h1 h2 h3; simp [scoreTimeline, h1, h2, h3]
  · intro s h; simp [scoreRiskTolerance, h]
  · intro s h1 h2; simp [scoreRiskTolerance, h1, h2]
  · intro s h1 h2 h3; simp [scoreRiskTolerance, h1, h2, h3]
  · simp only [generateRiskProfileFromQuiz, quizTier]
    split_ifs <;> rfl
  · simp only [quizTier]
    split_ifs with h1 h2 <;> simp_all <;> omega
  · simp only [quizTier]
    split_ifs with h1 h2 <;> simp_all <;> omega
  · simp only [quizTier]
    split_ifs with h1 h2 <;> simp_all <;> omega
  · simp only [generateRiskProfileFromScore, scoreTier]
    split_ifs <;> rfl
  · simp only [scoreTier]
    split_ifs with h1 h2 <;> simp_all <;> omega
  · simp only [scoreTier]
    split_ifs with h1 h2 <;> simp_all <;> omega
  · simp only [scoreTier]
    split_ifs with h1 h2 <;> simp_all <;> omega

/-- A concrete all-"3" answer record used to exercise `claim_C1`. -/
def aggressiveAnswers : QuizAnswers :=
  { experience := some "Advanced - Experienced with various investment types"
    timeline := some "Long-term (5+ years)"
    risk_tolerance := some "Buy more to average down" }

/-- Witness for `claim_C1`: the keyword hypotheses hold at a concrete answer
record, which scores 9 and lands in the aggressive tier. -/
theorem claim_C1_witness :
    quizTier aggressiveAnswers = Tier.aggressive
  ∧ scoreExperience (some "Intermediate - Some experience with stocks/funds") = 2 := by
  obtain ⟨-, -, -, -, -, hexp2, -, -, -, -, -, -, -, -, -, -, hagg, -, -, -, -⟩ :=
    claim_C1 aggressiveAnswers 0
  exact ⟨hagg.mpr (by decide), hexp2 _ (by decide) (by decide)⟩

/-- C8: the risk profilers of the two ChatInterface variants are
tier-equivalent — for every answer record they compute the same risk score
and select the same strategy tier; moreover each variant's profile text is
the template of its selected tier. -/
theorem claim_C8 (answers : QuizAnswers) :
    riskScoreV2 answers = quizRiskScore answers
  ∧ riskTierV2 answers = quizTier answers
  ∧ generateRiskProfileFromQuiz answers = formatRiskProfile (quizTier answers)
  ∧ generateRiskProfile answers none none
      = "Based on your responses, here's your Flare DeFi investment profile:\n\n"
        ++ strategyBlockV2 (riskTierV2 answers)
        ++ "You can now continue chatting with me for specific recommendations about Flare protocols and how to implement this strategy!" := by
  refine ⟨rfl, rfl, ?_, ?_⟩
  · simp only [generateRiskProfileFromQuiz, quizTier]
    split_ifs <;> rfl
  · simp only [generateRiskProfile, riskTierV2, jsStrTruthy]
    split_ifs <;> simp_all <;> rfl

/-- Any successful `handleAnswerSelect` transition from a state whose question
index is in range keeps the index in range (at most `RISK_QUESTIONS.length - 1
= 2`). -/
theorem handleAnswerSelect_le (st : RiskAssessmentState) (answer : String)
    (hle : st.currentQuestion ≤ 2) (st' : RiskAssessmentState) (msgs : List Message)
    (h : handleAnswerSelect st answer = some (st', msgs)) :
    st'.currentQuestion ≤ 2 := by
  obtain ⟨ic, cq, ans, pi, pa⟩ := st
  by_cases hp : jsStrTruthy pi = true
  · simp [handleAnswerSelect, hp] at h
    obtain ⟨h1, -⟩ := h
    subst h1
    exact hle
  · simp only [Bool.not_eq_true] at hp
    simp only at hle
    interval_cases cq <;>
      simp [handleAnswerSelect, hp, RISK_QUESTIONS] at h <;>
      obtain ⟨h1, -⟩ := h <;>
      subst h1 <;>
      simp

/-- Folding any sequence of answer clicks keeps the question index in range. -/
theorem runAnswers_le (events : List String) :
    ∀ st : RiskAssessmentState, st.currentQuestion ≤ 2 →
      (runAnswers st events).currentQuestion ≤ 2 := by
  induction events with
  | nil => intro st h; exact h
  | cons a rest ih =>
    intro st h
    unfold runAnswers
    rcases hh : handleAnswerSelect st a with - | p
    · exact h
    · obtain ⟨st', msgs⟩ := p
      exact ih st' (handleAnswerSelect_le st a h st' msgs hh)

/-- C9: `handleAnswerSelect` leaves the state unchanged when a portfolio image
is stored; on a non-final question it records the answer and increments
`currentQuestion` by exactly one, preserving `isComplete`; on the final
question it records the answer and sets `isComplete` without touching
`currentQuestion`; consequently `currentQuestion` never exceeds
`RISK_QUESTIONS.length - 1`. -/
theorem claim_C9 (st : RiskAssessmentState) (answer : String) :
    (jsStrTruthy st.portfolioImage = true → handleAnswerSelect st answer = some (st, []))
  ∧ (jsStrTruthy st.portfolioImage = false →
      st.currentQuestion < RISK_QUESTIONS.length - 1 →
      handleAnswerSelect st answer
        = some ({ st with
                  currentQuestion := st.currentQuestion + 1
                  answers := setAnswer st.answers (questionId st.currentQuestion) answer },
            [ mkUserMessage answer none
            , mkBotMessage (match RISK_QUESTIONS[st.currentQuestion + 1]? with
                            | some q => q.question
                            | none => "undefined") ]))
  ∧ (jsStrTruthy st.portfolioImage = false →
      st.currentQuestion = RISK_QUESTIONS.length - 1 →
      handleAnswerSelect st answer
        = some ({ st with
                  isComplete := true
                  answers := setAnswer st.answers (questionId st.currentQuestion) answer },
            [ mkUserMessage answer none
            , mkBotMessage (generateRiskProfileFromQuiz
                (setAnswer st.answers (questionId st.currentQuestion) answer)) ]))
  ∧ (∀ st' msgs, st.currentQuestion ≤ RISK_QUESTIONS.length - 1 →
      handleAnswerSelect st answer = some (st', msgs) →
      st'.currentQuestion ≤ RISK_QUESTIONS.length - 1)
  ∧ (∀ events, (runAnswers initialRiskAssessment events).currentQuestion
      ≤ RISK_QUESTIONS.length - 1) := by
  refine ⟨?_, ?_, ?_, ?_, ?_⟩
  · intro hp
    simp [handleAnswerSelect, hp]
  · intro hp hlt
    obtain ⟨ic, cq, ans, pi, pa⟩ := st
    simp only at hlt ⊢
    have h2 : cq < 2 := by simpa [RISK_QUESTIONS] using hlt
    interval_cases cq <;>
      simp [handleAnswerSelect, hp, RISK_QUESTIONS, questionId]
  · intro hp heq
    obtain ⟨ic, cq, ans, pi, pa⟩ := st
    simp only at heq ⊢
    have h2 : cq = 2 := by simpa [RISK_QUESTIONS] using heq
    subst h2
    simp [handleAnswerSelect, hp, RISK_QUESTIONS, questionId]
  · intro st' msgs hle h
    exact handleAnswerSelect_le st answer (by simpa [RISK_QUESTIONS] using hle) st' msgs h
  · intro events
    have : RISK_QUESTIONS.length - 1 = 2 := rfl
    rw [this]
    exact runAnswers_le events initialRiskAssessment (by simp [initialRiskAssessment])

/-- Witness for `claim_C9`: answering the first question from the initial
state advances to question 1 and leaves the assessment incomplete. -/
theorem claim_C9_witness :
    (handleAnswerSelect initialRiskAssessment "Beginner - New to investing").map
        (fun p => (p.1.currentQuestion, p.1.isComplete))
      = some (1, false) := by
  have h := (claim_C9 initialRiskAssessment "Beginner - New to investing").2.1
  rw [h (by decide) (by decide)]
  rfl

/-- C6: `validateFile` reports the oversize message for files above
4 * 1024 * 1024 bytes (checked first), the invalid-type message for non-image
MIME types, and `none` exactly when the file is an image within the limit; on
a validation error both upload handlers surface the message as a bot message
and perform no file read (and hence no network request); otherwise processing
proceeds to the read. -/
theorem claim_C6 (f : JsFile) :
    (f.size > 4 * 1024 * 1024 →
      validateFile f (4 * 1024 * 1024)
        = some "The image file is too large. Please upload an image smaller than 4MB.")
  ∧ (f.size ≤ 4 * 1024 * 1024 → jsStartsWith f.type "image/" = false →
      validateFile f (4 * 1024 * 1024)
        = some "Please upload a valid image file (JPEG, PNG, etc).")
  ∧ (validateFile f (4 * 1024 * 1024) = none
      ↔ (f.size ≤ 4 * 1024 * 1024 ∧ jsStartsWith f.type "image/" = true))
  ∧ (∀ e, validateFile f (4 * 1024 * 1024) = some e →
      handleImageUpload (some f) = [.botMessage e]
      ∧ handleImageUploadV2 (some f) = [.botMessage e]
      ∧ UploadEffect.readFile ∉ handleImageUpload (some f)
      ∧ UploadEffect.readFile ∉ handleImageUploadV2 (some f))
  ∧ (validateFile f (4 * 1024 * 1024) = none →
      handleImageUpload (some f) = [.consoleLog, .readFile]
      ∧ handleImageUploadV2 (some f) = [.consoleLog, .readFile]) := by
  refine ⟨?_, ?_, ?_, ?_, ?_⟩
  · intro h
    simp [validateFile, h]
  · intro h1 h2
    simp [validateFile, h1, h2, Nat.not_lt.mpr h1]
  · unfold validateFile
    split_ifs with h1 h2 <;> simp_all <;> omega
  · intro e he
    have hv : handleImageUpload (some f) = [.botMessage e] := by
      simp [handleImageUpload, he]
    have hv2 : handleImageUploadV2 (some f) = [.botMessage e] := by
      unfold validateFile at he
      unfold handleImageUploadV2
      split_ifs at he ⊢ with h1 h2 <;> simp_all
    refine ⟨hv, hv2, ?_, ?_⟩
    · rw [hv]; simp
    · rw [hv2]; simp
  · intro he
    constructor
    · simp [handleImageUpload, he]
    · unfold validateFile at he
      unfold handleImageUploadV2
      split_ifs at he ⊢ with h1 h2 <;> simp_all

/-- Witness for `claim_C6`: a 5 MB non-image file gets the oversize message
(the size check wins) and triggers no file read. -/
theorem claim_C6_witness :
    validateFile { name := "big.txt", size := 5000000, type := "text/plain" } (4 * 1024 * 1024)
      = some "The image file is too large. Please upload an image smaller than 4MB."
  ∧ handleImageUpload (some { name := "big.txt", size := 5000000, type := "text/plain" })
      = [.botMessage "The image file is too large. Please upload an image smaller than 4MB."] := by
  have h := claim_C6 { name := "big.txt", size := 5000000, type := "text/plain" }
  have h1 := h.1 (by decide)
  exact ⟨h1, (h.2.2.2.1 _ h1).1⟩

/-- C7: executing a strategy step in the visualizer only prefills chat input:
for every step and numeric total `q` it substitutes `(q * percentage / 100)`
rendered to two decimals for the placeholder in the command template and hands
the result to the `onExecuteCommand` callback, performing no HTTP request and
no wallet call. -/
theorem claim_C7 (step : StrategyStep) (q : ℚ) (a : Option ℚ) :
    executeStepVis2 true (some q) step
      = [ .setExecuting true
        , .fillCommand (jsReplaceFirst step.command "{amount}"
            (toFixed2 (q * step.percentage / 100)))
        , .advanceStep, .setExecuting false ]
  ∧ (executeStepVis2 true a step).countP isNetworkEffect = 0
  ∧ (executeStepVis2 false a step).countP isNetworkEffect = 0
  ∧ (executeStepVis1 true a step).countP isNetworkEffect = 0 := by
  refine ⟨rfl, ?_, rfl, rfl⟩
  cases a <;> rfl

/-- C2 (amended): per response, at most one wallet-signing call is made. When
the single `transaction` field is present, truthy, normalisable and
formattable, and a wallet client is available, exactly that formatted
transaction is signed; the formatted object takes its six fields from the
payload as the source does (`to`/`data` plain, `value`/`gas` via `BigInt`,
`nonce`/`chainId` via `Number`). -/
theorem claim_C2 (f : FetchOutcome) (hw : Bool) (w : WalletSend)
    (data : BackendData) (t : Json) (ftx : FormattedTx) :
    (sendMessageToAPI f hw w).2.countP isSendTx ≤ 1
  ∧ (data.transaction = some t → jsTruthy t = true →
      (normalizeTx t >>= formatTx) = Except.ok ftx →
      (sendMessageToAPI (.resp true (some data)) true w).2.filter isSendTx
        = [ApiEffect.sendTx ftx])
  ∧ (data.transaction = none →
      (sendMessageToAPI (.resp true (some data)) hw w).2.countP isSendTx = 0)
  ∧ (data.transaction = some t →
      (sendMessageToAPI (.resp true (some data)) false w).2.countP isSendTx = 0)
  ∧ (∀ txd ftx2, formatTx txd = Except.ok ftx2 →
      ftx2.«to» = jsGet txd "to" ∧ ftx2.data = jsGet txd "data"
      ∧ jsBigInt (jsGet txd "value") = Except.ok ftx2.value
      ∧ jsBigInt (jsGet txd "gas") = Except.ok ftx2.gas
      ∧ ftx2.nonce = jsNumber (jsGet txd "nonce")
      ∧ ftx2.chainId = jsNumber (jsGet txd "chainId")) := by
  refine ⟨?_, ?_, ?_, ?_, ?_⟩
  · rcases f with - | ⟨ok, body⟩
    · simp [sendMessageToAPI, sendMessageToAPIBody, isSendTx]
    · cases ok
      · simp [sendMessageToAPI, sendMessageToAPIBody, isSendTx]
      · rcases body with - | data'
        · simp [sendMessageToAPI, sendMessageToAPIBody, isSendTx]
        · rcases hdt : data'.transaction with - | t'
          · simp [sendMessageToAPI, sendMessageToAPIBody, hdt, isSendTx]
          · by_cases hc : (jsTruthy t' && hw) = true
            · rcases hnf : normalizeTx t' >>= formatTx with e | ftx'
              · simp [sendMessageToAPI, sendMessageToAPIBody, hdt, hc, hnf, isSendTx]
              · rcases w with hash | m <;>
                  simp [sendMessageToAPI, sendMessageToAPIBody, hdt, hc, hnf, isSendTx]
            · simp [sendMessageToAPI, sendMessageToAPIBody, hdt, hc, isSendTx]
  · intro h1 h2 h3
    rcases w with hash | m <;>
      simp [sendMessageToAPI, sendMessageToAPIBody, h1, h2, h3, isSendTx]
  · intro h1
    simp [sendMessageToAPI, sendMessageToAPIBody, h1, isSendTx]
  · intro h1
    simp [sendMessageToAPI, sendMessageToAPIBody, h1, isSendTx]
  · intro txd ftx2 hf
    rcases hv : jsBigInt (jsGet txd "value") with ev | v
    · simp [formatTx, hv] at hf
    · rcases hg : jsBigInt (jsGet txd "gas") with eg | g
      · simp [formatTx, hv, hg] at hf
      · simp [formatTx, hv, hg] at hf
        subst hf
        simp [hv, hg]

/-- A well-formed transaction payload carrying value `n`. -/
def txJsonSample (n : Int) : Json :=
  .obj [ ("to", .str "0xabc"), ("data", .str "0xdead"), ("value", .num n)
       , ("gas", .num 21000), ("nonce", .num 1), ("chainId", .num 14) ]

/-- A backend body whose `transaction` field carries one payload. -/
def oneTxData : BackendData :=
  { response := "ok", transaction := some (txJsonSample 5) }

/-- The formatted transaction the source builds from `txJsonSample 5`. -/
def sampleFtx : FormattedTx :=
  { «to» := some (.str "0xabc"), data := some (.str "0xdead")
    value := 5, gas := 21000, nonce := some 1, chainId := some 14 }

/-- Witness for `claim_C2`: with a concrete single-transaction response and a
connected wallet, exactly that formatted transaction is signed. -/
theorem claim_C2_witness :
    ((sendMessageToAPI (.resp true (some oneTxData)) true (.ok "0xhash")).2.filter isSendTx)
      = [ApiEffect.sendTx sampleFtx] :=
  (claim_C2 .netError true (.ok "0xhash") oneTxData (txJsonSample 5) sampleFtx).2.1
    rfl rfl (by rfl)

/-- A backend body carrying two pending transactions (an array under the
`transaction` field). -/
def twoTxData : BackendData :=
  { response := "ok", transaction := some (.arr [txJsonSample 1, txJsonSample 2]) }

/-- Counterexample to C2 as stated: a response carrying two pending
transactions leads to zero signing calls — the handler treats the field as a
single payload, `BigInt(txData.value)` throws on the array, and the inner
catch annotates the reply instead of signing each transaction. -/
theorem claim_C2_counterexample :
    (specPendingTxs twoTxData).length = 2
  ∧ ((sendMessageToAPI (.resp true (some twoTxData)) true (.ok "0xhash")).2.filter isSendTx) = []
  ∧ (sendMessageToAPI (.resp true (some twoTxData)) true (.ok "0xhash")).1
      = "ok" ++ "\n\nError: " ++ "Cannot convert undefined to a BigInt" := by
  exact ⟨rfl, rfl, rfl⟩

/-- C4: `sendMessageToAPI` never propagates an exception — every thrown error
inside its body resolves to the fixed apology string (network failure, non-ok
HTTP status, and unparsable body included); a wallet-signing failure resolves
to the backend reply annotated with the error message; when the guard passes,
`handleSubmit` appends the resolved text as a bot message and always resets
`isLoading` to `false`. -/
theorem claim_C4 (st : ChatState) (f : FetchOutcome) (hw : Bool) (w : WalletSend)
    (b : Option BackendData) (data : BackendData) (t : Json) (ftx : FormattedTx)
    (m : Option String) :
    (sendMessageToAPI .netError hw w).1
      = "Sorry, there was an error processing your request. Please try again."
  ∧ (sendMessageToAPI (.resp false b) hw w).1
      = "Sorry, there was an error processing your request. Please try again."
  ∧ (sendMessageToAPI (.resp true none) hw w).1
      = "Sorry, there was an error processing your request. Please try again."
  ∧ (∀ e effs, sendMessageToAPIBody f hw w = (Except.error e, effs) →
      sendMessageToAPI f hw w
        = ("Sorry, there was an error processing your request. Please try again.",
           effs ++ [ApiEffect.consoleError]))
  ∧ (data.transaction = some t → jsTruthy t = true →
      (normalizeTx t >>= formatTx) = Except.ok ftx →
      (sendMessageToAPI (.resp true (some data)) true (.err m)).1
        = data.response ++ "\n\nError: " ++ jsMsgOr m)
  ∧ (submitGuard st = false → (handleSubmit st f hw w).1.isLoading = false)
  ∧ (submitGuard st = false → st.awaitingConfirmation = false →
      (handleSubmit st f hw w).1.messages
        = st.messages
            ++ [ mkUserMessage (jsTrim st.inputText) (jsOrUndefined st.chatImagePreview)
               , mkBotMessage (sendMessageToAPI f hw w).1 ]) := by
  refine ⟨rfl, rfl, rfl, ?_, ?_, ?_, ?_⟩
  · intro e effs h
    simp [sendMessageToAPI, h]
  · intro h1 h2 h3
    simp [sendMessageToAPI, sendMessageToAPIBody, h1, h2, h3]
  · intro hg
    simp only [handleSubmit, hg, Bool.false_eq_true, if_false]
    split_ifs <;> rfl
  · intro hg ha
    simp [handleSubmit, hg, ha]

/-- An idle chat state with non-empty input, used to exercise `handleSubmit`. -/
def idleState : ChatState :=
  { messages := [], inputText := "hi", isLoading := false, awaitingConfirmation := false
    pendingTransaction := none, selectedChatImage := none, chatImagePreview := none }

/-- Witness for `claim_C4`: a concrete wallet rejection resolves to the
annotated reply, and a concrete guarded submission ends with `isLoading`
false. -/
theorem claim_C4_witness :
    (sendMessageToAPI (.resp true (some oneTxData)) true
        (.err (some "User rejected the request."))).1
      = "ok" ++ "\n\nError: " ++ "User rejected the request."
  ∧ (handleSubmit idleState .netError false (.ok "h")).1.isLoading = false := by
  have h := claim_C4 idleState .netError false (.ok "h") none oneTxData
    (txJsonSample 5) sampleFtx (some "User rejected the request.")
  refine ⟨?_, ?_⟩
  · have h5 := h.2.2.2.2.1 rfl rfl (by rfl)
    rw [h5]
    rfl
  · exact h.2.2.2.2.2.1 (by decide)

/-- A placeholder step for out-of-range list reads in concrete statements. -/
def fallbackStep : StrategyStep :=
  { type := .hold, description := "", percentage := 0, command := "" }

/-- Counterexample to C3 as stated: in a concrete run of the first step of
each strategy-executor variant (total 100 FLR), the effect traces contain no
transaction-confirmation lookup at all — only unconditional fixed delays
(1000 ms / 2000 ms) — and a completed `sendMessageToAPI` transaction
submission performs no receipt query either, so no "bounded polling loop
detecting each transaction's confirmation" exists. -/
theorem claim_C3_counterexample :
    (executeStepVis1 true (some 100) (DEFAULT_STRATEGY.steps.getD 0 fallbackStep)
        ++ executeStepExec (some 100) (DEFAULT_STRATEGY.steps.getD 0 fallbackStep) 0 3
        ++ executeStepVis2 true (some 100) (DEFAULT_STRATEGY_V2.steps.getD 0 fallbackStep)).countP
        isConfirmationEffect = 0
  ∧ (executeStepVis1 true (some 100) (DEFAULT_STRATEGY.steps.getD 0 fallbackStep)).countP
        isWaitEffect = 1
  ∧ (executeStepExec (some 100) (DEFAULT_STRATEGY.steps.getD 0 fallbackStep) 0 3).countP
        isWaitEffect = 1
  ∧ (sendMessageToAPI (.resp true (some oneTxData)) true (.ok "0xhash")).2.countP
        isReceiptQuery = 0 :=
  ⟨rfl, rfl, rfl, rfl⟩

/-- C3 (amended): each strategy step's handler runs to completion before the
next step is presented — the first visualizer waits a fixed 1000 ms and the
executor a fixed 2000 ms before advancing unconditionally; no polling loop
for transaction confirmation exists anywhere (no receipt query is ever
issued); and within `sendMessageToAPI` the transaction submission is awaited,
the reply being produced only after `sendTransaction` resolves. -/
theorem claim_C3 (hasCb : Bool) (a : Option ℚ) (step : StrategyStep) (cs len : Nat)
    (f : FetchOutcome) (hw : Bool) (w : WalletSend)
    (data : BackendData) (t : Json) (ftx : FormattedTx) (hash : String) :
    executeStepVis1 true a step
      = [ .setExecuting true
        , .fillCommand (jsReplaceFirst step.command "{amount}"
            (calculateStepAmount a step.percentage))
        , .wait 1000, .advanceStep, .setExecuting false ]
  ∧ (executeStepVis1 hasCb a step).countP isConfirmationEffect = 0
  ∧ executeStepExec a step cs len
      = [ .setExecuting true, .wait 2000, .advanceStep
        , .setProgress (((cs : ℚ) + 1) / (len : ℚ) * 100), .setExecuting false ]
  ∧ (executeStepExec a step cs len).countP isConfirmationEffect = 0
  ∧ (executeStepVis2 hasCb a step).countP isConfirmationEffect = 0
  ∧ (sendMessageToAPI f hw w).2.countP isReceiptQuery = 0
  ∧ (data.transaction = some t → jsTruthy t = true →
      (normalizeTx t >>= formatTx) = Except.ok ftx →
      sendMessageToAPI (.resp true (some data)) true (.ok hash)
        = (data.response ++ "\n\nTransaction sent! Hash: " ++ hash,
           [.fetchPost, .consoleLog, .sendTx ftx])) := by
  refine ⟨rfl, ?_, rfl, rfl, ?_, ?_, ?_⟩
  · cases hasCb <;> rfl
  · cases hasCb <;> rfl
  · rcases f with - | ⟨ok, body⟩
    · rfl
    · cases ok
      · rfl
      · rcases body with - | data'
        · rfl
        · rcases hdt : data'.transaction with - | t'
          · simp [sendMessageToAPI, sendMessageToAPIBody, hdt, isReceiptQuery]
          · by_cases hc : (jsTruthy t' && hw) = true
            · rcases hnf : normalizeTx t' >>= formatTx with e | ftx'
              · simp [sendMessageToAPI, sendMessageToAPIBody, hdt, hc, hnf, isReceiptQuery]
              · rcases w with hash' | m <;>
                  simp [sendMessageToAPI, sendMessageToAPIBody, hdt, hc, hnf, isReceiptQuery]
            · simp [sendMessageToAPI, sendMessageToAPIBody, hdt, hc, isReceiptQuery]
  · intro h1 h2 h3
    simp [sendMessageToAPI, sendMessageToAPIBody, h1, h2, h3]

/-- Witness for `claim_C3`: a concrete successful submission resolves with the
hash-annotated reply right after the single signing action. -/
theorem claim_C3_witness :
    sendMessageToAPI (.resp true (some oneTxData)) true (.ok "0xh")
      = ("ok" ++ "\n\nTransaction sent! Hash: " ++ "0xh",
         [.fetchPost, .consoleLog, .sendTx sampleFtx]) := by
  have h := (claim_C3 true none fallbackStep 0 0 .netError false (.ok "")
    oneTxData (txJsonSample 5) sampleFtx "0xh").2.2.2.2.2.2
  exact h rfl rfl (by rfl)

/-- C5: once a request is in flight (`isLoading` is true), a submit event is a
complete no-op and an input-change event touches only the input text — the
pending call is neither cancelled nor discarded — and the pending call's
completion is always processed, appending its bot message and clearing the
loading flag. -/
theorem claim_C5 (ls : LoopState) (s r : String) (p : PendingCall)
    (h : ls.chat.isLoading = true) :
    stepLoop ls .submit = ls
  ∧ (stepLoop ls (.setInput s)).pending = ls.pending
  ∧ (stepLoop ls (.setInput s)).chat.isLoading = true
  ∧ (ls.pending = some p →
      (stepLoop ls (.apiReturn r)).chat.messages = ls.chat.messages ++ [mkBotMessage r]
      ∧ (stepLoop ls (.apiReturn r)).pending = none
      ∧ (stepLoop ls (.apiReturn r)).chat.isLoading = false) := by
  refine ⟨?_, rfl, ?_, ?_⟩
  · simp [stepLoop, submitGuard, h]
  · simpa [stepLoop] using h
  · intro hp
    simp [stepLoop, hp]

/-- A loop state with an in-flight API call. -/
def busyLoopState : LoopState :=
  { chat :=
      { messages := [], inputText := "", isLoading := true, awaitingConfirmation := false
        pendingTransaction := none, selectedChatImage := none, chatImagePreview := none }
    pending := some { messageText := "stake 1 FLR", image := none } }

/-- Witness for `claim_C5` at a concrete busy state. -/
theorem claim_C5_witness :
    stepLoop busyLoopState .submit = busyLoopState
  ∧ (stepLoop busyLoopState (.setInput "next")).pending = busyLoopState.pending
  ∧ (stepLoop busyLoopState (.apiReturn "done")).pending = none := by
  have h := claim_C5 busyLoopState "next" "done"
    { messageText := "stake 1 FLR", image := none } rfl
  exact ⟨h.1, h.2.1, (h.2.2.2 rfl).2.1⟩

/-- C10: when the trimmed input is empty and no chat image is selected, or a
request is already in flight, `handleSubmit` returns immediately — no message
is appended, no state changes, and no network or wallet action is issued — in
both ChatInterface variants. -/
theorem claim_C10 (st : ChatState) (stP2 : ChatStateP2)
    (f : FetchOutcome) (hw : Bool) (w : WalletSend) (fp2 : FetchOutcomeP2)
    (h1 : (jsTrim st.inputText = "" ∧ st.selectedChatImage = none) ∨ st.isLoading = true)
    (h2 : jsTrim stP2.inputText = "" ∨ stP2.isLoading = true) :
    handleSubmit st f hw w = (st, []) ∧ handleSubmitP2 stP2 fp2 = stP2 := by
  constructor
  · have hg : submitGuard st = true := by
      rcases h1 with ⟨he, hi⟩ | h
      · simp [submitGuard, he, hi]
      · simp [submitGuard, h]
    simp [handleSubmit, hg]
  · have hg2 : (jsTrim stP2.inputText == "" || stP2.isLoading) = true := by
      rcases h2 with h | h <;> simp [h]
    simp [handleSubmitP2, hg2]

/-- Witness for `claim_C10`: a loading state and an all-whitespace input are
both rejected unchanged. -/
theorem claim_C10_witness :
    handleSubmit { idleState with isLoading := true } .netError false (.ok "h")
      = ({ idleState with isLoading := true }, [])
  ∧ handleSubmitP2
      { messages := [], inputText := "  ", isLoading := false
        awaitingConfirmation := false, pendingTransaction := none } .netError
      = { messages := [], inputText := "  ", isLoading := false
          awaitingConfirmation := false, pendingTransaction := none } :=
  claim_C10 _ _ _ false (.ok "h") _ (Or.inr rfl) (Or.inl (by decide))
